import Mathlib

/-!
Shallow embedding of the LogSet reconciliation controller
(`pkg/controllers/logset/controller.go`): the observe/decide/act state
machine (`Observe`), the action handlers (`Create`, `Scale`, `Repair`,
`Update`) and `Finalize`, together with the status-aggregation step.

External collaborators (the resource accessor and the resource builders)
are modelled as explicit environment records: each reconciliation pass
receives the results of its get/list/create/exist calls as data, and the
pure builders as values.  Machine integers (Go `int32` replica counts)
carry no arithmetic in this code, only equality and order comparisons, so
they are embedded as `Int`.
-/

namespace MatrixOneLogset

/-- One live pod as seen by the status aggregator: its store identity and
whether it passes the readiness predicate. -/
structure Pod where
  uid : String
  ready : Bool
deriving DecidableEq, Repr

/-- The `LogSetDiscovery` status field: address/port of the discovery
endpoint. -/
structure LogSetDiscovery where
  port : Int
  address : String
deriving DecidableEq, Repr

/-- The `Ready` condition written by `Observe`: its boolean status and the
reason code carried when false. -/
structure ReadyCondition where
  status : Bool
  reason : String
deriving DecidableEq, Repr

/-- The status sub-document of the LogSet object, exclusively owned by the
controller. -/
structure LogSetStatus where
  availableStores : List String
  failedStores : List String
  discovery : Option LogSetDiscovery
  readyCondition : Option ReadyCondition
deriving DecidableEq, Repr

/-- The desired-state spec: `Replicas` (Go `int32`, embedded as `Int`;
only compared, never computed with). -/
structure LogSetSpec where
  replicas : Int
deriving DecidableEq, Repr

/-- The desired-state object ("LogSet"). -/
structure LogSet where
  name : String
  ns : String
  spec : LogSetSpec
  status : LogSetStatus
deriving DecidableEq, Repr

/-- The replicated pod set (kruise StatefulSet) as the controller reads and
mutates it: its declared replica count, the pod template split into the
parts touched by the sync helpers (pod metadata, pod spec, config
reference), the storage-claim template and the labels. -/
structure StatefulSet where
  replicas : Int
  podMeta : String
  podSpec : String
  configRef : String
  pvcTemplate : String
  labels : List (String × String)
deriving DecidableEq, Repr

/-- Reason code constant `ReasonNoEnoughReadyStores` from the source. -/
def ReasonNoEnoughReadyStores : String := "NoEnoughReadyStores"

/-- Bootstrap identifier range start, `IDRangeStart` in the source. -/
def IDRangeStart : Int := 131072

/-- Bootstrap identifier range end, `IDRangeEnd` in the source. -/
def IDRangeEnd : Int := 262144

/-- The tagged result of `Observe`: which action handler, if any, runs
next.  In the source the handlers are returned as bound methods; here they
are a variant tag consumed by a single dispatch point. -/
inductive Action
  | Create
  | Scale
  | Repair
  | Update
deriving DecidableEq, Repr

/-- Result of one accessor `Get`: the object, not-found, or a transient
error (any error other than NotFound). -/
inductive GetResult (α : Type)
  | found (a : α)
  | notFound
  | err (e : String)
deriving DecidableEq, Repr

/-- Embedding of `util.IsFound`: a NotFound error is swallowed and turned
into `found = false`; any other error is propagated. -/
def isFound {α : Type} : GetResult α → Except String (Option α)
  | .found a => .ok (some a)
  | .notFound => .ok none
  | .err e => .error e

/-- Modelled from the spec: `collectStoreStatus` (the Status Aggregator) is
part of the repository but not among the provided source files.  Per the
spec it partitions the live pods bearing the cluster's selector labels into
`AvailableStores` (pod passes the readiness predicate) and `FailedStores`
(pod exists but fails the predicate), writing both sets onto the status
document, as a pure function of the pod snapshot. -/
def collectStoreStatus (ls : LogSet) (pods : List Pod) : LogSet :=
  { ls with status := { ls.status with
      availableStores := (pods.filter (fun p => p.ready)).map (fun p => p.uid),
      failedStores := (pods.filter (fun p => !p.ready)).map (fun p => p.uid) } }

/-- The Ready condition computed at lines 69-80 of the source: status True
when `len(ls.Status.AvailableStores) >= int(ls.Spec.Replicas)`, otherwise
status False with reason `NoEnoughReadyStores`. -/
def readyOf (ls : LogSet) : ReadyCondition :=
  if (ls.status.availableStores.length : Int) ≥ ls.spec.replicas then
    { status := true, reason := "" }
  else
    { status := false, reason := ReasonNoEnoughReadyStores }

/-- Per-pass environment for `Observe`: the results of its accessor calls
and the external resource builders it consumes.  The builders are pure
functions of the (fixed) desired-state object, so for one pass they appear
as plain values; `buildConfigMap` and `SyncConfigMap` may fail.
`discoveryPort`/`discoveryAddress` stand for the external
`LogServicePort`/`discoverySvcAddress` helpers. -/
structure ObserveEnv where
  getDiscovery : GetResult Unit
  getSts : GetResult StatefulSet
  listPods : Except String (List Pod)
  buildConfigMap : Except String String
  podMetaOf : String
  podSpecOf : String
  syncConfigMap : String → Except String String
  discoveryPort : Int
  discoveryAddress : String

/-- Embedding of `syncPods` (lines 179-187): build the config map, sync pod
metadata and pod spec onto the live pod set, then wire the (possibly
rewritten) config reference into the template; each fallible step
propagates its error. -/
def syncPods (env : ObserveEnv) (sts : StatefulSet) : Except String StatefulSet :=
  match env.buildConfigMap with
  | .error e => .error e
  | .ok cm =>
    let sts1 : StatefulSet := { sts with podMeta := env.podMetaOf, podSpec := env.podSpecOf }
    match env.syncConfigMap cm with
    | .error e => .error e
    | .ok ref => .ok { sts1 with configRef := ref }

/-- Status recomputation performed by `Observe` once both sub-resources
were found (lines 61-84): aggregate store status from the listed pods, set
the Ready condition, and set the Discovery field. -/
def recomputeStatus (env : ObserveEnv) (ls : LogSet) (pods : List Pod) : LogSet :=
  let ls1 := collectStoreStatus ls pods
  let ls2 : LogSet :=
    { ls1 with status := { ls1.status with readyCondition := some (readyOf ls1) } }
  { ls2 with status := { ls2.status with
      discovery := some { port := env.discoveryPort, address := env.discoveryAddress } } }

/-- The Go `Observe` returns the pair (action, error); the mutated object
carries the recomputed status alongside. -/
structure ObserveResult where
  obj : LogSet
  action : Option Action
  err : Option String
deriving Repr

/-- The priority switch of `Observe` after status recomputation (lines
86-99): failed stores select `Repair`; a replica-count mismatch selects
`Scale`; otherwise the pod template is re-synced and compared against the
deep copy taken before the sync — a difference selects `Update`, equality
ends the pass as a no-op. -/
def observeAfterList (env : ObserveEnv) (sts : StatefulSet) (ls3 : LogSet) : ObserveResult :=
  if ls3.status.failedStores.length > 0 then
    { obj := ls3, action := some .Repair, err := none }
  else if ls3.spec.replicas ≠ sts.replicas then
    { obj := ls3, action := some .Scale, err := none }
  else
    match syncPods env sts with
    | .error e => { obj := ls3, action := none, err := some e }
    | .ok sts2 =>
      if sts2 = sts then { obj := ls3, action := none, err := none }
      else { obj := ls3, action := some .Update, err := none }

/-- Embedding of `LogSetActor.Observe` (lines 42-100): get the discovery
service and the pod set (errors propagate, NotFound is information); if
either is absent select `Create`; otherwise list the pods, recompute
status, and run the priority switch. -/
def observe (env : ObserveEnv) (ls : LogSet) : ObserveResult :=
  match isFound env.getDiscovery with
  | .error e => { obj := ls, action := none, err := some e }
  | .ok od =>
    match isFound env.getSts with
    | .error e => { obj := ls, action := none, err := some e }
    | .ok osts =>
      match od, osts with
      | some _, some sts =>
        (match env.listPods with
         | .error e => { obj := ls, action := none, err := some e }
         | .ok pods => observeAfterList env sts (recomputeStatus env ls pods))
      | _, _ => { obj := ls, action := some .Create, err := none }

/-- The four resources created by `Create`, in source order: bootstrap
config, headless service, pod set, discovery service. -/
inductive ResourceId
  | bootstrapConfig
  | headlessSvc
  | statefulSet
  | discoverySvc
deriving DecidableEq, Repr

/-- Outcome of one `ctx.CreateOwned` call: success, an AlreadyExists
error, or any other creation error. -/
inductive CreateOutcome
  | ok
  | alreadyExists
  | failed (e : String)
deriving DecidableEq, Repr

/-- Embedding of `util.Ignore(apierrors.IsAlreadyExists, err)`: an
AlreadyExists error is replaced by nil; any other error is kept. -/
def ignoreAlreadyExists : CreateOutcome → Option String
  | .ok => none
  | .alreadyExists => none
  | .failed e => some e

/-- Embedding of `multierr.Append`: appending nil leaves the combined
error unchanged; a combined error is the list of its constituents, nil
being the empty list. -/
def multierrAppend (errs : List String) (e : Option String) : List String :=
  match e with
  | none => errs
  | some x => errs ++ [x]

/-- The creation order of `Create`'s `lo.Reduce` call (lines 128-138). -/
def createOrder : List ResourceId :=
  [.bootstrapConfig, .headlessSvc, .statefulSet, .discoverySvc]

/-- Per-pass environment for `Create`: the fallible build steps and the
accessor's `CreateOwned`, which acts on an abstract store state `σ` and
reports an outcome per resource. -/
structure CreateEnv (σ : Type) where
  buildBootstrapConfig : Except String Unit
  buildConfigMap : Except String String
  syncConfigMap : String → Except String String
  createOwned : σ → ResourceId → σ × CreateOutcome

/-- The `lo.Reduce` loop of `Create` (lines 128-138): every resource in
`createOrder` is handed to `CreateOwned` in turn, each outcome is filtered
through `ignoreAlreadyExists` and appended to the running combined error;
no outcome stops the loop. -/
def createAll {σ : Type} (co : σ → ResourceId → σ × CreateOutcome) (s : σ) :
    σ × List String :=
  createOrder.foldl
    (fun acc r =>
      let res := co acc.1 r
      (res.1, multierrAppend acc.2 (ignoreAlreadyExists res.2)))
    (s, [])

/-- Error returned by `Create`: an early return from a failed build step,
or the non-empty combined error of the creation loop. -/
inductive CreateErr
  | buildFailed (e : String)
  | createFailed (errs : List String)
deriving DecidableEq, Repr

/-- Embedding of `LogSetActor.Create` (lines 102-143): build the bootstrap
config, the services and the pod set, sync the config into the pod
template (each fallible build step returns early on error), then attempt
all four creations and return nil exactly when the combined creation
error is nil. -/
def createAction {σ : Type} (env : CreateEnv σ) (s : σ) : σ × Option CreateErr :=
  match env.buildBootstrapConfig with
  | .error e => (s, some (.buildFailed e))
  | .ok _ =>
    match env.buildConfigMap with
    | .error e => (s, some (.buildFailed e))
    | .ok cm =>
      match env.syncConfigMap cm with
      | .error e => (s, some (.buildFailed e))
      | .ok _ =>
        let res := createAll env.createOwned s
        (res.1, if res.2 = [] then none else some (.createFailed res.2))

/-- The orchestration store's own semantics of `CreateOwned`, used for the
idempotence property: the store is the set of existing resources; creating
an absent resource inserts it, creating a present one fails with
AlreadyExists and leaves the store unchanged. -/
def storeCreateOwned (w : List ResourceId) (r : ResourceId) :
    List ResourceId × CreateOutcome :=
  if r ∈ w then (w, .alreadyExists) else (r :: w, .ok)

/-- Modelled from the spec: `syncReplicas` is part of the repository but
not among the provided source files.  Per the spec, `Scale` "patches only
the replica count field in place", so `syncReplicas` sets the pod set's
declared replica count to the desired-state object's `Replicas` and
touches nothing else. -/
def syncReplicas (ls : LogSet) (sts : StatefulSet) : StatefulSet :=
  { sts with replicas := ls.spec.replicas }

/-- Embedding of `WithResources.Scale` (lines 147-152): a read-modify-write
patch whose mutation is `syncReplicas` applied to the latest stored
version of the pod set. -/
def scale (ls : LogSet) (sts : StatefulSet) : StatefulSet :=
  syncReplicas ls sts

/-- Embedding of `LogSetActor.Repair` (lines 155-158): a deliberate
placeholder performing no corrective mutation. -/
def repair (_ls : LogSet) : Option String :=
  none

/-- Resource kinds distinguished by the finalizer's existence checks. -/
inductive Kind
  | service
  | statefulSet
deriving DecidableEq, Repr

/-- Modelled from the spec: the naming helper for the replicated pod set
is not among the provided source files.  The spec only requires that the
three owned sub-resources are distinct stable identities, so the three
name helpers return pairwise distinct names derived from the object
name. -/
def stsName (ls : LogSet) : String := ls.name ++ "-log"

/-- Modelled from the spec: naming helper for the headless service (see
`stsName`). -/
def headlessSvcName (ls : LogSet) : String := ls.name ++ "-headless"

/-- Modelled from the spec: naming helper for the discovery service (see
`stsName`). -/
def discoverySvcName (ls : LogSet) : String := ls.name ++ "-discovery"

/-- Per-pass environment for `Finalize`: the set of objects (name, kind)
still existing in the store, and a per-check transient error. -/
structure FinalizeEnv where
  objects : List (String × Kind)
  existErr : String → Kind → Option String

/-- One `ctx.Exist` call: on a transient error the boolean is the zero
value false and the error is reported; otherwise membership in the
store. -/
def existCheck (env : FinalizeEnv) (n : String) (k : Kind) : Bool × Option String :=
  match env.existErr n k with
  | some e => (false, some e)
  | none => (decide ((n, k) ∈ env.objects), none)

/-- Embedding of `LogSetActor.Finalize` (lines 166-177), faithful to the
source: the three existence checks are the headless service, the pod set,
and — as written at line 174 — a Service under the pod set's name
`stsName(ls)` (not `discoverySvcName(ls)`); check errors are aggregated
with `multierr`, and completion is the conjunction of the three
absences. -/
def finalize (env : FinalizeEnv) (ls : LogSet) : Bool × List String :=
  let c1 := existCheck env (headlessSvcName ls) .service
  let c2 := existCheck env (stsName ls) .statefulSet
  let c3 := existCheck env (stsName ls) .service
  ((!c1.1) && (!c2.1) && (!c3.1),
   multierrAppend (multierrAppend (multierrAppend [] c1.2) c2.2) c3.2)

/-!  Helper lemmas. -/

theorem multierrAppend_eq (errs : List String) (o : Option String) :
    multierrAppend errs o = errs ++ o.toList := by
  cases o <;> simp [multierrAppend]

theorem recomputeStatus_failedStores (env : ObserveEnv) (ls : LogSet) (pods : List Pod) :
    (recomputeStatus env ls pods).status.failedStores
      = (collectStoreStatus ls pods).status.failedStores := rfl

theorem recomputeStatus_availableStores (env : ObserveEnv) (ls : LogSet) (pods : List Pod) :
    (recomputeStatus env ls pods).status.availableStores
      = (collectStoreStatus ls pods).status.availableStores := rfl

theorem recomputeStatus_ready (env : ObserveEnv) (ls : LogSet) (pods : List Pod) :
    (recomputeStatus env ls pods).status.readyCondition
      = some (readyOf (collectStoreStatus ls pods)) := rfl

theorem recomputeStatus_discovery (env : ObserveEnv) (ls : LogSet) (pods : List Pod) :
    (recomputeStatus env ls pods).status.discovery
      = some { port := env.discoveryPort, address := env.discoveryAddress } := rfl

theorem recomputeStatus_spec (env : ObserveEnv) (ls : LogSet) (pods : List Pod) :
    (recomputeStatus env ls pods).spec = ls.spec := rfl

theorem observeAfterList_obj (env : ObserveEnv) (sts : StatefulSet) (ls3 : LogSet) :
    (observeAfterList env sts ls3).obj = ls3 := by
  unfold observeAfterList
  repeat' split
  all_goals rfl

theorem observeAfterList_excl (env : ObserveEnv) (sts : StatefulSet) (ls3 : LogSet) :
    ((observeAfterList env sts ls3).err.isSome → (observeAfterList env sts ls3).action = none)
    ∧ ((observeAfterList env sts ls3).action.isSome → (observeAfterList env sts ls3).err = none) := by
  unfold observeAfterList
  repeat' split
  all_goals simp

/-- Claim C8: `Scale` mutates only the replica-count field of the pod set,
setting it to the desired-state object's `Replicas`; the pod template
parts, storage-claim template and labels are identical before and after. -/
theorem scale_changes_only_replicas (ls : LogSet) (sts : StatefulSet) :
    (scale ls sts).replicas = ls.spec.replicas
    ∧ (scale ls sts).podMeta = sts.podMeta
    ∧ (scale ls sts).podSpec = sts.podSpec
    ∧ (scale ls sts).configRef = sts.configRef
    ∧ (scale ls sts).pvcTemplate = sts.pvcTemplate
    ∧ (scale ls sts).labels = sts.labels :=
  ⟨rfl, rfl, rfl, rfl, rfl, rfl⟩

/-- Finalization state used to exhibit the divergence at line 174 of the
source: the headless service and the pod set are already gone, only the
discovery service still exists. -/
def lsFin : LogSet :=
  { name := "demo", ns := "default", spec := { replicas := 3 },
    status := { availableStores := [], failedStores := [],
                discovery := none, readyCondition := none } }

/-- Store holding only the discovery service of `lsFin`. -/
def envFin : FinalizeEnv :=
  { objects := [(discoverySvcName lsFin, Kind.service)],
    existErr := fun _ _ => none }

/-- Claim C3: evaluation of `Finalize` at the failing input.  The third
existence check at line 174 looks up a Service under the pod set's name
`stsName(ls)` instead of `discoverySvcName(ls)`, so when only the
discovery service remains, `Finalize` reports completion even though the
discovery endpoint still exists — contradicting both the claim and the
intent visible in the variable name `discoverySvcExist`. -/
theorem finalize_complete_despite_discovery :
    (finalize envFin lsFin).1 = true
    ∧ (finalize envFin lsFin).2 = []
    ∧ (discoverySvcName lsFin, Kind.service) ∈ envFin.objects := by
  refine ⟨by decide, by decide, ?_⟩
  simp [envFin]

/-- Creation environment whose accessor outcomes are given resource-wise
by `f` and whose build steps succeed; used to state the error-aggregation
property of `Create`. -/
def outcomeEnv (cm ref : String) (f : ResourceId → CreateOutcome) : CreateEnv Unit :=
  { buildBootstrapConfig := .ok ()
    buildConfigMap := .ok cm
    syncConfigMap := fun _ => .ok ref
    createOwned := fun s r => (s, f r) }

/-- The genuine creation failures of a pass, in creation order:
AlreadyExists and success contribute nothing, any other error its
message. -/
def creationErrorsOf (f : ResourceId → CreateOutcome) : List String :=
  createOrder.filterMap (fun r =>
    match f r with
    | .failed e => some e
    | _ => none)

/-- Claim C6: with the build steps succeeding, `Create` attempts all four
creations even when an earlier one fails — the store state is threaded
through every `CreateOwned` call in creation order — an AlreadyExists
outcome on any individual resource is treated as success, and the
remaining errors of all attempted creations are returned as one combined
error (nil exactly when there are none). -/
theorem create_attempts_all_and_aggregates (cm ref : String)
    (f : ResourceId → CreateOutcome)
    {σ : Type} (co : σ → ResourceId → σ × CreateOutcome) (s : σ) :
    ((createAction (outcomeEnv cm ref f) ()).2
      = if creationErrorsOf f = [] then none
        else some (CreateErr.createFailed (creationErrorsOf f)))
    ∧ (createAll co s).1
      = (co (co (co (co s .bootstrapConfig).1 .headlessSvc).1 .statefulSet).1
          .discoverySvc).1 := by
  constructor
  · cases h0 : f .bootstrapConfig <;> cases h1 : f .headlessSvc <;>
      cases h2 : f .statefulSet <;> cases h3 : f .discoverySvc <;>
      simp [createAction, outcomeEnv, createAll, createOrder, creationErrorsOf,
        ignoreAlreadyExists, multierrAppend, h0, h1, h2, h3]
  · simp [createAll, createOrder]

/-- Creation environment over the orchestration store's own semantics:
builds succeed and `CreateOwned` inserts absent resources, failing with
AlreadyExists on present ones. -/
def storeEnv (cm ref : String) : CreateEnv (List ResourceId) :=
  { buildBootstrapConfig := .ok ()
    buildConfigMap := .ok cm
    syncConfigMap := fun _ => .ok ref
    createOwned := storeCreateOwned }

theorem storeCreateOwned_ignore (w : List ResourceId) (r : ResourceId) :
    ignoreAlreadyExists (storeCreateOwned w r).2 = none := by
  unfold storeCreateOwned
  split <;> rfl

theorem storeCreateOwned_mem_self (w : List ResourceId) (r : ResourceId) :
    r ∈ (storeCreateOwned w r).1 := by
  unfold storeCreateOwned
  split
  · assumption
  · exact List.mem_cons_self r w

theorem storeCreateOwned_mono (w : List ResourceId) (r x : ResourceId)
    (h : x ∈ w) : x ∈ (storeCreateOwned w r).1 := by
  unfold storeCreateOwned
  split
  · exact h
  · exact List.mem_cons_of_mem r h

theorem storeCreateOwned_of_mem (w : List ResourceId) (r : ResourceId)
    (h : r ∈ w) : storeCreateOwned w r = (w, .alreadyExists) := by
  unfold storeCreateOwned
  simp [h]

/-- Claim C7: `Create` is idempotent over the store semantics — the first
invocation leaves all four sub-resources existing and returns no error,
and a second invocation on the resulting store (where each creation sees
AlreadyExists, treated as success) returns the very same set of
sub-resources and no error. -/
theorem create_idempotent (cm ref : String) (w0 : List ResourceId) :
    (createAction (storeEnv cm ref) w0).2 = none
    ∧ (∀ r, r ∈ (createAction (storeEnv cm ref) w0).1)
    ∧ createAction (storeEnv cm ref) ((createAction (storeEnv cm ref) w0).1)
      = ((createAction (storeEnv cm ref) w0).1, none) := by
  have hAll : ∀ w : List ResourceId, (createAll storeCreateOwned w).2 = [] := by
    intro w
    simp [createAll, createOrder, storeCreateOwned_ignore, multierrAppend]
  have hMem : ∀ (w : List ResourceId) (r : ResourceId),
      r ∈ (createAll storeCreateOwned w).1 := by
    intro w r
    have h1 := storeCreateOwned_mem_self w ResourceId.bootstrapConfig
    simp only [createAll, createOrder, List.foldl]
    cases r with
    | bootstrapConfig =>
        exact storeCreateOwned_mono _ _ _ (storeCreateOwned_mono _ _ _
          (storeCreateOwned_mono _ _ _ h1))
    | headlessSvc =>
        exact storeCreateOwned_mono _ _ _ (storeCreateOwned_mono _ _ _
          (storeCreateOwned_mem_self _ _))
    | statefulSet =>
        exact storeCreateOwned_mono _ _ _ (storeCreateOwned_mem_self _ _)
    | discoverySvc =>
        exact storeCreateOwned_mem_self _ _
  have hFix : ∀ w : List ResourceId, (∀ r : ResourceId, r ∈ w) →
      createAll storeCreateOwned w = (w, []) := by
    intro w hw
    simp [createAll, createOrder, storeCreateOwned_of_mem w _ (hw _),
      ignoreAlreadyExists, multierrAppend]
  constructor
  · simp [createAction, storeEnv, hAll]
  constructor
  · intro r
    simpa [createAction, storeEnv, hAll] using hMem w0 r
  · simp [createAction, storeEnv, hAll, hFix _ (hMem w0)]

theorem observe_found (env : ObserveEnv) (ls : LogSet) (sts : StatefulSet)
    (pods : List Pod)
    (hd : env.getDiscovery = GetResult.found ())
    (hs : env.getSts = GetResult.found sts)
    (hp : env.listPods = Except.ok pods) :
    observe env ls = observeAfterList env sts (recomputeStatus env ls pods) := by
  unfold observe
  rw [hd, hs, hp]
  rfl

theorem collectStoreStatus_spec (ls : LogSet) (pods : List Pod) :
    (collectStoreStatus ls pods).spec = ls.spec := rfl

/-- Claim C1: in any observed state where both the discovery endpoint and
the pod set exist and the status aggregation reports a non-empty set of
failed stores, `Observe` selects `Repair` — regardless of any replica
mismatch or template/config drift also present (the pod set and the
builder environment are arbitrary). -/
theorem observe_repair_priority (env : ObserveEnv) (ls : LogSet)
    (sts : StatefulSet) (pods : List Pod)
    (hd : env.getDiscovery = GetResult.found ())
    (hs : env.getSts = GetResult.found sts)
    (hp : env.listPods = Except.ok pods)
    (hf : (collectStoreStatus ls pods).status.failedStores ≠ []) :
    (observe env ls).action = some Action.Repair ∧ (observe env ls).err = none := by
  rw [observe_found env ls sts pods hd hs hp]
  have hl : (recomputeStatus env ls pods).status.failedStores.length > 0 := by
    rw [recomputeStatus_failedStores]
    exact List.length_pos.mpr hf
  unfold observeAfterList
  rw [if_pos hl]
  exact ⟨rfl, rfl⟩

/-- Claim C2: once `Observe` has recomputed status from the listed pods,
the Ready condition on the status document is set, is True exactly when
the number of available stores reaches the desired `Replicas`, and carries
reason `NoEnoughReadyStores` whenever it is False. -/
theorem observe_ready_condition (env : ObserveEnv) (ls : LogSet)
    (sts : StatefulSet) (pods : List Pod)
    (hd : env.getDiscovery = GetResult.found ())
    (hs : env.getSts = GetResult.found sts)
    (hp : env.listPods = Except.ok pods) :
    ∃ c, (observe env ls).obj.status.readyCondition = some c
      ∧ (c.status = true ↔
          ((observe env ls).obj.status.availableStores.length : Int) ≥ ls.spec.replicas)
      ∧ (c.status = false → c.reason = ReasonNoEnoughReadyStores) := by
  rw [observe_found env ls sts pods hd hs hp, observeAfterList_obj]
  refine ⟨readyOf (collectStoreStatus ls pods), recomputeStatus_ready env ls pods, ?_, ?_⟩
  · rw [recomputeStatus_availableStores]
    have hspec : (collectStoreStatus ls pods).spec = ls.spec :=
      collectStoreStatus_spec ls pods
    unfold readyOf
    rw [hspec]
    split
    · next h => simp [h]
    · next h => simp [h]
  · unfold readyOf
    split <;> simp

/-- Claim C4 (amended): on every pass in which both sub-resources exist —
that is, every pass that can reach the Repair/Scale/Update/no-op part of
the priority decision — the status sub-document is recomputed from the
live pod state before that decision: the store sets come from the pod
snapshot and the Discovery field and Ready condition are freshly written.
Passes that select `Create` return before the status recomputation. -/
theorem observe_recomputes_status_before_decision (env : ObserveEnv) (ls : LogSet)
    (sts : StatefulSet) (pods : List Pod)
    (hd : env.getDiscovery = GetResult.found ())
    (hs : env.getSts = GetResult.found sts)
    (hp : env.listPods = Except.ok pods) :
    (observe env ls).obj = recomputeStatus env ls pods
    ∧ (observe env ls).obj.status.availableStores
        = (pods.filter (fun p => p.ready)).map (fun p => p.uid)
    ∧ (observe env ls).obj.status.failedStores
        = (pods.filter (fun p => !p.ready)).map (fun p => p.uid)
    ∧ (observe env ls).obj.status.discovery
        = some { port := env.discoveryPort, address := env.discoveryAddress }
    ∧ (observe env ls).obj.status.readyCondition
        = some (readyOf (collectStoreStatus ls pods)) := by
  rw [observe_found env ls sts pods hd hs hp, observeAfterList_obj]
  exact ⟨rfl, rfl, rfl, rfl, rfl⟩

/-- Claim C5: whenever the two gets succeed (found or not-found) and the
discovery endpoint or the pod set is absent, `Observe` selects `Create`
and nothing else: the pass returns exactly the Create action, no error,
and the object untouched. -/
theorem observe_create_when_absent (env : ObserveEnv) (ls : LogSet)
    (hdok : ∀ e, env.getDiscovery ≠ GetResult.err e)
    (hsok : ∀ e, env.getSts ≠ GetResult.err e)
    (habs : env.getDiscovery = GetResult.notFound ∨ env.getSts = GetResult.notFound) :
    observe env ls = { obj := ls, action := some Action.Create, err := none } := by
  cases hgd : env.getDiscovery with
  | err e => exact absurd hgd (hdok e)
  | found u =>
    cases hgs : env.getSts with
    | err e => exact absurd hgs (hsok e)
    | found sts =>
      rcases habs with h | h
      · rw [hgd] at h
        exact absurd h (by simp)
      · rw [hgs] at h
        exact absurd h (by simp)
    | notFound =>
      unfold observe
      rw [hgd, hgs]
      rfl
  | notFound =>
    cases hgs : env.getSts with
    | err e => exact absurd hgs (hsok e)
    | found sts =>
      unfold observe
      rw [hgd, hgs]
      rfl
    | notFound =>
      unfold observe
      rw [hgd, hgs]
      rfl

/-- Claim C9: given a live pod set whose replica count matches the desired
`Replicas`, no failed stores in the pod snapshot, and a template/config
that the re-sync leaves unchanged, `Observe` ends the pass as a no-op:
no action and no error. -/
theorem observe_noop_stability (env : ObserveEnv) (ls : LogSet)
    (sts : StatefulSet) (pods : List Pod)
    (hd : env.getDiscovery = GetResult.found ())
    (hs : env.getSts = GetResult.found sts)
    (hp : env.listPods = Except.ok pods)
    (hfail : (collectStoreStatus ls pods).status.failedStores = [])
    (hrep : ls.spec.replicas = sts.replicas)
    (hsync : syncPods env sts = Except.ok sts) :
    (observe env ls).action = none ∧ (observe env ls).err = none := by
  rw [observe_found env ls sts pods hd hs hp]
  have h1 : ¬((recomputeStatus env ls pods).status.failedStores.length > 0) := by
    rw [recomputeStatus_failedStores, hfail]
    simp
  have h2 : ¬((recomputeStatus env ls pods).spec.replicas ≠ sts.replicas) := by
    rw [recomputeStatus_spec]
    simpa using hrep
  unfold observeAfterList
  rw [if_neg h1, if_neg h2, hsync]
  simp

theorem observe_excl (env : ObserveEnv) (ls : LogSet) :
    ((observe env ls).err.isSome → (observe env ls).action = none)
    ∧ ((observe env ls).action.isSome → (observe env ls).err = none) := by
  unfold observe
  cases hgd : env.getDiscovery <;> cases hgs : env.getSts <;> simp [isFound]
  rename_i u sts
  cases hp : env.listPods <;> simp
  rename_i pods
  exact observeAfterList_excl env sts (recomputeStatus env ls pods)

/-- Claim C10: `Observe` never returns an action together with an error —
an error result always carries no action — and a failure of any accessor
call (get of the discovery endpoint, get of the pod set, list of pods) or
of the desired-template re-sync yields exactly that error with no action,
abandoning the priority decision of the pass. -/
theorem observe_error_no_action (env : ObserveEnv) (ls : LogSet) :
    ((observe env ls).err.isSome → (observe env ls).action = none)
    ∧ ((observe env ls).action.isSome → (observe env ls).err = none)
    ∧ (∀ e, env.getDiscovery = GetResult.err e →
        observe env ls = { obj := ls, action := none, err := some e })
    ∧ (∀ e, (∀ e2, env.getDiscovery ≠ GetResult.err e2) →
        env.getSts = GetResult.err e →
        observe env ls = { obj := ls, action := none, err := some e })
    ∧ (∀ e sts, env.getDiscovery = GetResult.found () →
        env.getSts = GetResult.found sts → env.listPods = Except.error e →
        observe env ls = { obj := ls, action := none, err := some e })
    ∧ (∀ e sts pods, env.getDiscovery = GetResult.found () →
        env.getSts = GetResult.found sts → env.listPods = Except.ok pods →
        (collectStoreStatus ls pods).status.failedStores = [] →
        ls.spec.replicas = sts.replicas →
        syncPods env sts = Except.error e →
        observe env ls
          = { obj := recomputeStatus env ls pods, action := none, err := some e }) := by
  refine ⟨(observe_excl env ls).1, (observe_excl env ls).2, ?_, ?_, ?_, ?_⟩
  · intro e he
    unfold observe
    rw [he]
    rfl
  · intro e hdok hs
    cases hgd : env.getDiscovery with
    | err e2 => exact absurd hgd (hdok e2)
    | found u =>
      unfold observe
      rw [hgd, hs]
      rfl
    | notFound =>
      unfold observe
      rw [hgd, hs]
      rfl
  · intro e sts hd hs hp
    unfold observe
    rw [hd, hs, hp]
    rfl
  · intro e sts pods hd hs hp hfail hrep hsync
    rw [observe_found env ls sts pods hd hs hp]
    have h1 : ¬((recomputeStatus env ls pods).status.failedStores.length > 0) := by
      rw [recomputeStatus_failedStores, hfail]
      simp
    have h2 : ¬((recomputeStatus env ls pods).spec.replicas ≠ sts.replicas) := by
      rw [recomputeStatus_spec]
      simpa using hrep
    unfold observeAfterList
    rw [if_neg h1, if_neg h2, hsync]

/-!  Concrete states and environments for witnesses and counterexamples. -/

/-- A small desired-state object with one desired replica. -/
def lsW : LogSet :=
  { name := "w", ns := "d", spec := { replicas := 1 },
    status := { availableStores := [], failedStores := [],
                discovery := none, readyCondition := none } }

/-- A live pod set matching `lsW`'s desired specification. -/
def stsW : StatefulSet :=
  { replicas := 1, podMeta := "m", podSpec := "p", configRef := "c",
    pvcTemplate := "v", labels := [] }

/-- Observation environment whose builders reproduce `stsW`'s template,
parameterized by the pod-set get result and the pod list result. -/
def baseEnvW (g : GetResult StatefulSet) (lp : Except String (List Pod)) : ObserveEnv :=
  { getDiscovery := .found ()
    getSts := g
    listPods := lp
    buildConfigMap := .ok "cm"
    podMetaOf := "m"
    podSpecOf := "p"
    syncConfigMap := fun _ => .ok "c"
    discoveryPort := 0
    discoveryAddress := "addr" }

/-- One live pod passing the readiness predicate. -/
def podsReadyW : List Pod := [{ uid := "s0", ready := true }]

/-- One live pod failing the readiness predicate. -/
def podsFailW : List Pod := [{ uid := "s0", ready := false }]

/-- Environment with both sub-resources present and one failed store. -/
def envRepairW : ObserveEnv := baseEnvW (.found stsW) (.ok podsFailW)

/-- Environment with both sub-resources present, one ready store, and a
template the re-sync leaves unchanged. -/
def envReadyW : ObserveEnv := baseEnvW (.found stsW) (.ok podsReadyW)

/-- Environment in which the pod set is absent. -/
def envAbsentW : ObserveEnv := baseEnvW .notFound (.ok [])

/-- Environment in which the get of the discovery endpoint fails with a
transient error. -/
def envErrW : ObserveEnv :=
  { baseEnvW (.found stsW) (.ok []) with getDiscovery := .err "boom" }

/-- Witness for claim C1 at a concrete input: both sub-resources exist,
the single pod fails the readiness predicate, and `Observe` selects
`Repair`. -/
theorem observe_repair_priority_witness :
    (observe envRepairW lsW).action = some Action.Repair
    ∧ (observe envRepairW lsW).err = none :=
  observe_repair_priority envRepairW lsW stsW podsFailW rfl rfl rfl (by decide)

/-- Witness for claim C2 at a concrete input: with one ready store and one
desired replica, the Ready condition is set and obeys the threshold. -/
theorem observe_ready_condition_witness :
    ∃ c, (observe envReadyW lsW).obj.status.readyCondition = some c
      ∧ (c.status = true ↔
          ((observe envReadyW lsW).obj.status.availableStores.length : Int)
            ≥ lsW.spec.replicas)
      ∧ (c.status = false → c.reason = ReasonNoEnoughReadyStores) :=
  observe_ready_condition envReadyW lsW stsW podsReadyW rfl rfl rfl

/-- Witness for the amended claim C4 at a concrete input. -/
theorem observe_recomputes_status_before_decision_witness :
    (observe envReadyW lsW).obj = recomputeStatus envReadyW lsW podsReadyW
    ∧ (observe envReadyW lsW).obj.status.availableStores
        = (podsReadyW.filter (fun p => p.ready)).map (fun p => p.uid)
    ∧ (observe envReadyW lsW).obj.status.failedStores
        = (podsReadyW.filter (fun p => !p.ready)).map (fun p => p.uid)
    ∧ (observe envReadyW lsW).obj.status.discovery
        = some { port := envReadyW.discoveryPort, address := envReadyW.discoveryAddress }
    ∧ (observe envReadyW lsW).obj.status.readyCondition
        = some (readyOf (collectStoreStatus lsW podsReadyW)) :=
  observe_recomputes_status_before_decision envReadyW lsW stsW podsReadyW rfl rfl rfl

/-- Witness for claim C5 at a concrete input: the pod set is absent, so
`Observe` selects `Create` with no error and the object untouched. -/
theorem observe_create_when_absent_witness :
    observe envAbsentW lsW = { obj := lsW, action := some Action.Create, err := none } :=
  observe_create_when_absent envAbsentW lsW
    (fun _ h => by simp [envAbsentW, baseEnvW] at h)
    (fun _ h => by simp [envAbsentW, baseEnvW] at h)
    (Or.inr rfl)

/-- Witness for claim C9 at a concrete input: one ready store, matching
replica count and unchanged template, so the pass is a no-op. -/
theorem observe_noop_stability_witness :
    (observe envReadyW lsW).action = none ∧ (observe envReadyW lsW).err = none :=
  observe_noop_stability envReadyW lsW stsW podsReadyW rfl rfl rfl (by decide) rfl rfl

/-- Witness for claim C10 at a concrete input: a failing get of the
discovery endpoint yields that error and no action. -/
theorem observe_error_no_action_witness :
    observe envErrW lsW = { obj := lsW, action := none, err := some "boom" } :=
  (observe_error_no_action envErrW lsW).2.2.1 "boom" rfl

/-- Desired-state object carrying stale status fields, used to exhibit
that a Create pass does not recompute status. -/
def lsStale : LogSet :=
  { name := "w", ns := "d", spec := { replicas := 1 },
    status := { availableStores := ["stale"], failedStores := [],
                discovery := none, readyCondition := none } }

/-- Environment for the stale-status pass: the pod set is absent and the
live pod list is empty. -/
def envCreateStale : ObserveEnv := baseEnvW .notFound (.ok [])

/-- Counterexample to claim C4 as stated: on a pass that selects `Create`
(the pod set is absent), `Observe` returns with the status sub-document
untouched — the stale `AvailableStores` survives even though aggregation
of the (empty) live pod list would clear it, and no Ready condition and no
Discovery field are written before the decision. -/
theorem observe_create_skips_status_recompute :
    (observe envCreateStale lsStale).action = some Action.Create
    ∧ (observe envCreateStale lsStale).err = none
    ∧ (observe envCreateStale lsStale).obj = lsStale
    ∧ lsStale.status.readyCondition = none
    ∧ lsStale.status.discovery = none
    ∧ lsStale.status.availableStores
        ≠ (collectStoreStatus lsStale []).status.availableStores := by
  refine ⟨rfl, rfl, rfl, rfl, rfl, by decide⟩

end MatrixOneLogset
